import Mathlib

/-
Verification of the Neo4j-to-LightRAG converter
(`neo4j_to_lightrag_converter.py`).

The program issues two fixed Cypher queries against a property graph
(an all-nodes query and an all-relationships query), derives one text
chunk per node row, and assembles a three-key mapping
(entities / relations / chunks).  We embed:

* the property-graph data model (nodes with labels and key/value
  properties, directed typed edges with properties);
* the row semantics of the two fixed queries, including Cypher
  `coalesce` (first non-null argument), `labels(n)[0]`, `elementId`,
  and the `apoc.convert.toJson(properties(..))` serialization (modelled
  by a deterministic JSON printer — no claim depends on the exact
  serialization text);
* the chunk comprehension, including Python `str.split()` semantics
  (split on runs of whitespace, discarding empty pieces);
* the error flow of `convert_to_lightrag_format` (a failed query
  propagates, nothing partial is returned);
* the `async with` acquisition/release protocol of
  `__aenter__`/`__aexit__` as a trace function.

Query result rows are association lists from column name to value,
mirroring `record.data()` dictionaries.
-/

namespace N2L

/-- A Neo4j property value (string, numeric, or boolean).  Numbers are
modelled by rationals; Neo4j property values are never null. -/
inductive PropVal where
  | str (s : String)
  | num (q : Rat)
  | bool (b : Bool)
deriving DecidableEq, Repr

/-- A node's or relationship's property map, as a key/value list. -/
abbrev Props := List (String × PropVal)

/-- A value in a query result record: Cypher values can additionally be
null (e.g. `labels(n)[0]` on a label-less node), integers (Python
`len`), floats (the literal `1.0 AS weight`), or whole property maps
(the `properties(n)` column). -/
inductive Val where
  | null
  | str (s : String)
  | int (n : Int)
  | float (q : Rat)
  | bool (b : Bool)
  | propMap (ps : Props)
deriving DecidableEq, Repr

/-- One query result record, as returned by `record.data()`: a mapping
from column alias to value, in the order the RETURN clause lists. -/
abbrev Row := List (String × Val)

/-- The converter output type: a mapping from the three top-level keys
to row sequences (the Python dict literal at the end of
`convert_to_lightrag_format`). -/
abbrev KG := List (String × List Row)

/-- An error raised while running a query (the exceptions re-raised by
`_run_query`). -/
abbrev QueryError := String

/-- A stored graph node: internal element id, label list, properties. -/
structure GNode where
  elementId : String
  labels : List String
  props : Props
deriving DecidableEq, Repr

/-- A stored relationship: internal element id, type, properties. -/
structure GRel where
  elementId : String
  relType : String
  props : Props
deriving DecidableEq, Repr

/-- One directed edge match `(src)-[r]->(tgt)`. -/
structure Edge where
  src : GNode
  rel : GRel
  tgt : GNode
deriving DecidableEq, Repr

/-- The database contents the two queries run against. -/
structure Graph where
  nodes : List GNode
  rels : List Edge
deriving DecidableEq, Repr

/-- Property access `n.key`: the value if the key is present, otherwise
Cypher null (here `Option.none`). -/
def getProp (ps : Props) (k : String) : Option PropVal :=
  (ps.find? (fun p => p.1 == k)).map (fun p => p.2)

/-- Injection of a (non-null) property value into the result-value
type. -/
def valOfProp : PropVal → Val
  | .str s => .str s
  | .num q => .float q
  | .bool b => .bool b

/-- Cypher `coalesce(n.name, n.title, elementId(n))`: the first
non-null argument.  A property that is present — even one holding the
empty string — is non-null and wins. -/
def coalesceName (ps : Props) (eid : String) : Val :=
  match getProp ps "name" with
  | some v => valOfProp v
  | none =>
    match getProp ps "title" with
    | some v => valOfProp v
    | none => .str eid

/-- Cypher `labels(n)[0]`: the first label, or null when there is
none. -/
def firstLabel : List String → Val
  | [] => .null
  | l :: _ => .str l

/-- Decimal-free rendering of a rational, used only inside the JSON
printer below. -/
def ratStr (q : Rat) : String :=
  if q.den = 1 then toString q.num else toString q.num ++ "/" ++ toString q.den

/-- JSON rendering of one property value (for
`apoc.convert.toJson`). -/
def jsonOfPropVal : PropVal → String
  | .str s => "\"" ++ s ++ "\""
  | .num q => ratStr q
  | .bool b => if b then "true" else "false"

/-- JSON rendering of a property map, modelling
`apoc.convert.toJson(properties(..))`: a deterministic serialization of
all keys and values in stored order. -/
def jsonOfProps (ps : Props) : String :=
  "\x7b" ++
    String.intercalate ","
      (ps.map (fun p => "\"" ++ p.1 ++ "\":" ++ jsonOfPropVal p.2)) ++
  "\x7d"

/-- The record produced for one node by the fixed node query:
`elementId(n) AS source_id`,
`coalesce(n.name, n.title, elementId(n)) AS entity_name`,
`labels(n)[0] AS entity_type`,
`apoc.convert.toJson(properties(n)) AS description`,
`properties(n) as properties`. -/
def nodeRow (n : GNode) : Row :=
  [("source_id", .str n.elementId),
   ("entity_name", coalesceName n.props n.elementId),
   ("entity_type", firstLabel n.labels),
   ("description", .str (jsonOfProps n.props)),
   ("properties", .propMap n.props)]

/-- The record produced for one edge by the fixed relationship query:
`coalesce(src.name, src.title, elementId(src)) AS src_id`,
`coalesce(tgt.name, tgt.title, elementId(tgt)) AS tgt_id`,
`type(r) AS description`, `apoc.convert.toJson(properties(r)) as
keywords`, the literal `1.0 AS weight`, `elementId(r) as source_id`. -/
def relRow (e : Edge) : Row :=
  [("src_id", coalesceName e.src.props e.src.elementId),
   ("tgt_id", coalesceName e.tgt.props e.tgt.elementId),
   ("description", .str e.rel.relType),
   ("keywords", .str (jsonOfProps e.rel.props)),
   ("weight", .float 1),
   ("source_id", .str e.rel.elementId)]

/-- Result rows of the node query `MATCH (n) RETURN ...`: one row per
stored node, in store order. -/
def node_query (g : Graph) : List Row :=
  g.nodes.map nodeRow

/-- Result rows of the relationship query
`MATCH (src)-[r]->(tgt) RETURN ...`: one row per stored edge, in store
order. -/
def relationship_query (g : Graph) : List Row :=
  g.rels.map relRow

/-- Dictionary lookup `row[k]` on a result record.  Rows produced by
the two queries always carry the key being looked up; the null default
stands in for the Python `KeyError` branch that those rows never
reach. -/
def rowGet (row : Row) (k : String) : Val :=
  match row.find? (fun p => p.1 == k) with
  | some p => p.2
  | none => .null

/-- Python `str(...)` as used by the f-string `f"chunk_{...}"`.  The
converter only ever applies it to string values. -/
def pyStr : Val → String
  | .null => "None"
  | .str s => s
  | .int n => toString n
  | .float q => ratStr q
  | .bool b => if b then "True" else "False"
  | .propMap ps => jsonOfProps ps

/-- Helper for Python `str.split()`: walk the characters, accumulating
the current (reversed) word, flushing it at whitespace and at the
end. -/
def pySplitAux : List Char → List Char → List (List Char)
  | [], [] => []
  | [], acc => [acc.reverse]
  | c :: cs, acc =>
    if c.isWhitespace then
      match acc with
      | [] => pySplitAux cs []
      | _ => acc.reverse :: pySplitAux cs []
    else pySplitAux cs (c :: acc)

/-- Python `s.split()` with no separator argument: split on runs of
whitespace, with no empty pieces and no leading/trailing artifacts. -/
def pySplit (s : String) : List String :=
  (pySplitAux s.toList []).map (fun cs => String.mk cs)

/-- The body of the chunk comprehension in
`convert_to_lightrag_format`, applied to one node row `node`:
`chunk_id = f"chunk_{node['source_id']}"`,
`content = node['description']`,
`source_id = node['source_id']`,
`tokens = len(node['description'].split())`,
`chunk_order_index = 0`. -/
def chunkOfRow (node : Row) : Row :=
  [("chunk_id", .str ("chunk_" ++ pyStr (rowGet node "source_id"))),
   ("content", rowGet node "description"),
   ("source_id", rowGet node "source_id"),
   ("tokens", .int ((pySplit (pyStr (rowGet node "description"))).length : Int)),
   ("chunk_order_index", .int 0)]

/-- `convert_to_lightrag_format`, parameterized by the outcomes of the
two `_run_query` calls (in program order: nodes first, then
relationships).  A query failure propagates unchanged; on success the
chunks are derived from the node rows and the three-key dictionary is
returned. -/
def convert_to_lightrag_format (nodesRes relsRes : Except QueryError (List Row)) :
    Except QueryError KG :=
  match nodesRes with
  | .error e => .error e
  | .ok nodes_data =>
    match relsRes with
    | .error e => .error e
    | .ok relationships_data =>
      let chunks := nodes_data.map chunkOfRow
      .ok [("entities", nodes_data),
           ("relations", relationships_data),
           ("chunks", chunks)]

/-- The whole conversion run against a graph on which both queries
succeed. -/
def convertOnGraph (g : Graph) : Except QueryError KG :=
  convert_to_lightrag_format (.ok (node_query g)) (.ok (relationship_query g))

/-- Lookup of one of the three sequences in the converter output. -/
def kgGet (kg : KG) (k : String) : List Row :=
  match kg.find? (fun p => p.1 == k) with
  | some p => p.2
  | none => []

/-- Decidable form of "some entity row has this `entity_name`". -/
def hasEntityNamed (kg : KG) (v : Val) : Bool :=
  (kgGet kg "entities").any (fun ent => rowGet ent "entity_name" == v)

/-- Run-counting form of the whitespace token count: the number of
maximal whitespace-free runs in the character list; the flag records
whether we are inside a run. -/
def countTokens : List Char → Bool → Nat
  | [], _ => 0
  | c :: cs, inTok =>
    if c.isWhitespace then countTokens cs false
    else if inTok then countTokens cs true
    else countTokens cs true + 1

/-- Number of whitespace-delimited tokens of a string, counting runs of
whitespace as a single delimiter (the spec's description of the chunk
token count). -/
def specTokenCount (s : String) : Nat :=
  countTokens s.toList false

/-- Observable trace of one `async with Neo4jToLightRAGConverter(...)`
execution: whether the driver object was created, how many times
`close()` ran, and whether an exception propagated out. -/
structure CMTrace where
  driverCreated : Bool
  closeCalls : Nat
  raised : Bool
deriving DecidableEq, Repr

/-- The `async with` protocol applied to the converter, indexed by the
outcomes of its three fallible steps.  `__aenter__` first creates the
driver object and stores it in `self._driver`, then awaits
`verify_connectivity()`; both `except` arms log and re-raise.  Per the
Python with-statement protocol, an exception escaping `__aenter__`
propagates without `__aexit__` ever running.  When `__aenter__`
returns, the body runs and `__aexit__` always runs afterwards; it calls
`close()` exactly when `self._driver` is set (which it is on every
path that completed `__aenter__`), and a body exception is then
re-raised. -/
def asyncWithConverter (createOk verifyOk bodyOk : Bool) : CMTrace :=
  if !createOk then
    { driverCreated := false, closeCalls := 0, raised := true }
  else if !verifyOk then
    { driverCreated := true, closeCalls := 0, raised := true }
  else
    { driverCreated := true, closeCalls := 1, raised := !bodyOk }

/-- Extract the payload of a successful conversion (used to name
concrete expected outputs in witnesses). -/
def okKG : Except QueryError KG → KG
  | .ok kg => kg
  | .error _ => []

/-- Witness fixture: a one-node graph with a plain named node. -/
def gW1 : Graph :=
  ⟨[⟨"4:g:0", ["Person"], [("name", .str "Alice"), ("age", .num 30)]⟩], []⟩

/-- Output of the conversion on `gW1`. -/
def kgW1 : KG := okKG (convertOnGraph gW1)

/-- Counterexample fixture: a relationship carrying an explicit numeric
`weight` property (value 2). -/
def edgeW2 : Edge :=
  ⟨⟨"4:c2:1", ["Person"], []⟩,
   ⟨"5:c2:1", "KNOWS", [("weight", .num 2)]⟩,
   ⟨"4:c2:2", ["Person"], []⟩⟩

/-- Witness fixture: node `Alice` for the referential-integrity
witness graph. -/
def nW3a : GNode := ⟨"4:w3:1", ["Person"], [("name", .str "Alice")]⟩

/-- Witness fixture: a node with neither `name` nor `title`. -/
def nW3b : GNode := ⟨"4:w3:2", ["Person"], []⟩

/-- Witness fixture: one edge from `nW3a` to `nW3b`. -/
def eW3 : Edge := ⟨nW3a, ⟨"5:w3:1", "KNOWS", []⟩, nW3b⟩

/-- Witness fixture: two-node, one-edge graph. -/
def gW3 : Graph := ⟨[nW3a, nW3b], [eW3]⟩

/-- Output of the conversion on `gW3`. -/
def kgW3 : KG := okKG (convertOnGraph gW3)

/-- The relation row produced for `eW3`. -/
def rW3 : Row := relRow eW3

/-- Counterexample fixture: a node whose `name` property holds the
empty string (present, hence non-null, but empty) and which has no
`title`. -/
def nodeW6 : GNode := ⟨"4:c6:7", ["Person"], [("name", .str "")]⟩

/-- Witness fixture: a node with neither a `name` nor a `title`
property. -/
def nodeW6b : GNode := ⟨"4:c6:9", [], [("age", .num 30)]⟩

/-- Witness fixture: a node whose description JSON contains internal
whitespace. -/
def nW8 : GNode := ⟨"4:w8:1", [], [("name", .str "a b  c")]⟩

/-- Witness fixture graph for the token-count claim. -/
def gW8 : Graph := ⟨[nW8], []⟩

/-- Output of the conversion on `gW8`. -/
def kgW8 : KG := okKG (convertOnGraph gW8)

/-- The single chunk row produced on `gW8`. -/
def cW8 : Row := chunkOfRow (nodeRow nW8)

/-- Fixture: a one-node graph for the field-name claim. -/
def nW9 : GNode := ⟨"4:w9:1", ["Person"], [("name", .str "Alice")]⟩

/-- Fixture graph for the field-name claim. -/
def gW9 : Graph := ⟨[nW9], []⟩

/-- Output of the conversion on `gW9`. -/
def kgW9 : KG := okKG (convertOnGraph gW9)

/-- Witness fixture: a one-node, one-edge graph (the node named via
`title`). -/
def gW10 : Graph :=
  ⟨[⟨"4:wx:1", ["City"], [("title", .str "Rome")]⟩],
   [⟨⟨"4:wx:1", ["City"], [("title", .str "Rome")]⟩,
     ⟨"5:wx:1", "LOCATED_IN", []⟩,
     ⟨"4:wx:1", ["City"], [("title", .str "Rome")]⟩⟩]⟩

/-- Output of the conversion on `gW10`. -/
def kgW10 : KG := okKG (convertOnGraph gW10)

/-- On a graph where both queries succeed, the conversion returns the
three-key structure built from the query rows. -/
theorem convertOnGraph_eq (g : Graph) :
    convertOnGraph g =
      Except.ok [("entities", node_query g),
                 ("relations", relationship_query g),
                 ("chunks", (node_query g).map chunkOfRow)] := rfl

/-- Looking up `entities` in the assembled output. -/
theorem kgGet_entities (a b c : List Row) :
    kgGet [("entities", a), ("relations", b), ("chunks", c)] "entities" = a := rfl

/-- Looking up `relations` in the assembled output. -/
theorem kgGet_relations (a b c : List Row) :
    kgGet [("entities", a), ("relations", b), ("chunks", c)] "relations" = b := rfl

/-- Looking up `chunks` in the assembled output. -/
theorem kgGet_chunks (a b c : List Row) :
    kgGet [("entities", a), ("relations", b), ("chunks", c)] "chunks" = c := rfl

/-- A pair drawn from a list zipped with its own image under `f` is an
element paired with its image. -/
theorem mem_zip_map {α β : Type} (f : α → β) (l : List α) (p : α × β)
    (hp : p ∈ l.zip (l.map f)) : p.2 = f p.1 ∧ p.1 ∈ l := by
  induction l with
  | nil => simp [List.zip] at hp
  | cons a l ih =>
    simp only [List.map_cons, List.zip_cons_cons] at hp
    rcases List.mem_cons.mp hp with h | h
    · subst h
      exact ⟨rfl, List.mem_cons_self _ _⟩
    · obtain ⟨h1, h2⟩ := ih h
      exact ⟨h1, List.mem_cons_of_mem _ h2⟩

/-- Length of the split produced by `pySplitAux`, as a run count. -/
theorem pySplitAux_length (cs : List Char) :
    ∀ acc : List Char,
      (pySplitAux cs acc).length =
        countTokens cs (!acc.isEmpty) + (if acc.isEmpty then 0 else 1) := by
  induction cs with
  | nil =>
    intro acc
    cases acc <;> simp [pySplitAux, countTokens]
  | cons c cs ih =>
    intro acc
    by_cases hw : c.isWhitespace
    · cases acc with
      | nil => simp [pySplitAux, countTokens, hw, ih]
      | cons a as => simp [pySplitAux, countTokens, hw, ih]
    · cases acc with
      | nil => simp [pySplitAux, countTokens, hw, ih]
      | cons a as => simp [pySplitAux, countTokens, hw, ih]

/-- Python `len(s.split())` equals the whitespace-run token count. -/
theorem pySplit_length (s : String) :
    (pySplit s).length = specTokenCount s := by
  simp [pySplit, specTokenCount, pySplitAux_length]

/-- C5: when both queries succeed with zero rows, the conversion
returns successfully with `entities`, `relations` and `chunks` all
empty — it is not an error. -/
theorem c5_empty_graph_ok :
    convertOnGraph ⟨[], []⟩ =
      Except.ok [("entities", []), ("relations", []), ("chunks", [])] := rfl

/-- C4: a failed relationship query after a successful node query makes
the whole conversion propagate that error, and a failed node query does
too — no partial three-key structure is ever returned on a query
failure. -/
theorem c4_query_failure_propagates :
    (∀ (nodes : List Row) (e : QueryError),
        convert_to_lightrag_format (Except.ok nodes) (Except.error e) =
          Except.error e) ∧
    (∀ (e : QueryError) (relsRes : Except QueryError (List Row)),
        convert_to_lightrag_format (Except.error e) relsRes =
          Except.error e) :=
  ⟨fun _ _ => rfl, fun _ _ => rfl⟩

/-- C2 counterexample: a relationship carrying an explicit numeric
`weight` property of value 2 still yields `weight = 1.0` in its output
row — the query emits the literal `1.0 AS weight` and never reads the
property, so the claim's "equals that property's value" branch fails. -/
theorem c2_counterexample :
    getProp edgeW2.rel.props "weight" = some (PropVal.num 2) ∧
    rowGet (relRow edgeW2) "weight" = Val.float 1 ∧
    Val.float 1 ≠ valOfProp (PropVal.num 2) := by
  refine ⟨rfl, rfl, ?_⟩
  decide

/-- C2 amended: for every relationship row produced by the conversion,
the `weight` field equals `1.0`, whether or not the underlying
relationship carries an explicit numeric weight property. -/
theorem c2_weight_always_one (e : Edge) :
    rowGet (relRow e) "weight" = Val.float 1 := rfl

/-- C7 counterexample: when connection verification fails inside
`__aenter__`, a driver object has been created and stored, yet
`close()` runs zero times (the with-statement protocol skips
`__aexit__` when `__aenter__` raises) — not exactly once as claimed. -/
theorem c7_counterexample :
    (asyncWithConverter true false true).driverCreated = true ∧
    (asyncWithConverter true false true).closeCalls = 0 := by
  decide

/-- C7 amended: `close()` runs exactly once on every exit path on which
`__aenter__` completed — normal return and query-execution failure
alike — and zero times when driver creation or connection verification
fails, because `__aexit__` is not invoked when `__aenter__` raises. -/
theorem c7_close_iff_acquired (createOk verifyOk bodyOk : Bool) :
    (asyncWithConverter createOk verifyOk bodyOk).closeCalls =
      if createOk && verifyOk then 1 else 0 := by
  cases createOk <;> cases verifyOk <;> rfl

/-- C6 counterexample: a node whose `name` property holds the empty
string (and which has no `title`) gets the empty string as
`entity_name`, not its raw element identifier — Cypher `coalesce`
selects the first non-null value, and a present-but-empty string is
non-null, so "first non-empty value" is not what the code computes. -/
theorem c6_counterexample :
    rowGet (nodeRow nodeW6) "entity_name" = Val.str "" ∧
    getProp nodeW6.props "title" = none ∧
    Val.str "" ≠ Val.str nodeW6.elementId := by
  refine ⟨rfl, rfl, ?_⟩
  decide

/-- C6 amended: `entity_name` is the first present (non-null) value in
the fallback chain `name` property, then `title` property, then the
node's raw element identifier; in particular a node lacking both `name`
and `title` gets its raw identifier as `entity_name`. -/
theorem c6_name_fallback (n : GNode) :
    (∀ v, getProp n.props "name" = some v →
        rowGet (nodeRow n) "entity_name" = valOfProp v) ∧
    (getProp n.props "name" = none →
      ∀ v, getProp n.props "title" = some v →
        rowGet (nodeRow n) "entity_name" = valOfProp v) ∧
    (getProp n.props "name" = none → getProp n.props "title" = none →
      rowGet (nodeRow n) "entity_name" = Val.str n.elementId) := by
  have base : rowGet (nodeRow n) "entity_name" = coalesceName n.props n.elementId := rfl
  refine ⟨fun v hv => ?_, fun hn v hv => ?_, fun hn ht => ?_⟩
  · rw [base]; unfold coalesceName; rw [hv]
  · rw [base]; unfold coalesceName; rw [hn, hv]
  · rw [base]; unfold coalesceName; rw [hn, ht]

/-- C6 witness: on a concrete node with neither `name` nor `title`, the
amended fallback rule yields the raw element identifier. -/
theorem c6_witness :
    rowGet (nodeRow nodeW6b) "entity_name" = Val.str "4:c6:9" :=
  (c6_name_fallback nodeW6b).2.2 rfl rfl

/-- C1: the conversion produces exactly one chunk per node row, in the
same order, and pairing the entity sequence with the chunk sequence
shows each chunk's `chunk_id` is the string `chunk_` followed by the
originating node's `source_id`, its `content` is the node's
`description`, its `source_id` is the node's `source_id`, and its
`chunk_order_index` is 0. -/
theorem c1_chunk_per_node (g : Graph) (kg : KG)
    (h : convertOnGraph g = Except.ok kg) :
    (kgGet kg "chunks").length = (kgGet kg "entities").length ∧
    ∀ p ∈ (kgGet kg "entities").zip (kgGet kg "chunks"),
      (∃ sid, rowGet p.1 "source_id" = Val.str sid ∧
        rowGet p.2 "chunk_id" = Val.str ("chunk_" ++ sid) ∧
        rowGet p.2 "source_id" = Val.str sid) ∧
      rowGet p.2 "content" = rowGet p.1 "description" ∧
      rowGet p.2 "chunk_order_index" = Val.int 0 := by
  rw [convertOnGraph_eq] at h
  obtain rfl := (Except.ok.inj h).symm
  rw [kgGet_chunks, kgGet_entities]
  refine ⟨List.length_map _ _, fun p hp => ?_⟩
  obtain ⟨h2, h1⟩ := mem_zip_map chunkOfRow _ p hp
  obtain ⟨n, _, hn⟩ := List.mem_map.mp h1
  refine ⟨⟨n.elementId, ?_, ?_, ?_⟩, ?_, ?_⟩
  · rw [← hn]; rfl
  · rw [h2, ← hn]; rfl
  · rw [h2, ← hn]; rfl
  · rw [h2]; rfl
  · rw [h2]; rfl

/-- C1 witness: on a concrete one-node graph the chunk and entity
sequences have equal length, namely one. -/
theorem c1_witness :
    (kgGet kgW1 "chunks").length = (kgGet kgW1 "entities").length ∧
    (kgGet kgW1 "entities").length = 1 :=
  ⟨(c1_chunk_per_node gW1 kgW1 rfl).1, rfl⟩

/-- C3: on any graph whose relationship endpoints are stored nodes (as
`MATCH (src)-[r]->(tgt)` guarantees), every relation row's `src_id` and
`tgt_id` each equal the `entity_name` of some entity row, because the
same coalesce fallback expression is applied to the endpoint nodes as
in the all-nodes query. -/
theorem c3_referential_integrity (g : Graph) (kg : KG)
    (hwf : ∀ e ∈ g.rels, e.src ∈ g.nodes ∧ e.tgt ∈ g.nodes)
    (h : convertOnGraph g = Except.ok kg) :
    ∀ r ∈ kgGet kg "relations",
      hasEntityNamed kg (rowGet r "src_id") = true ∧
      hasEntityNamed kg (rowGet r "tgt_id") = true := by
  rw [convertOnGraph_eq] at h
  obtain rfl := (Except.ok.inj h).symm
  rw [kgGet_relations]
  intro r hr
  obtain ⟨e, he, rfl⟩ := List.mem_map.mp hr
  obtain ⟨hsrc, htgt⟩ := hwf e he
  constructor
  · show (kgGet _ "entities").any _ = true
    rw [kgGet_entities]
    refine List.any_eq_true.mpr ⟨nodeRow e.src, List.mem_map_of_mem _ hsrc, ?_⟩
    show (rowGet (nodeRow e.src) "entity_name" == rowGet (relRow e) "src_id") = true
    have : rowGet (nodeRow e.src) "entity_name" = rowGet (relRow e) "src_id" := rfl
    rw [this, beq_self_eq_true]
  · show (kgGet _ "entities").any _ = true
    rw [kgGet_entities]
    refine List.any_eq_true.mpr ⟨nodeRow e.tgt, List.mem_map_of_mem _ htgt, ?_⟩
    show (rowGet (nodeRow e.tgt) "entity_name" == rowGet (relRow e) "tgt_id") = true
    have : rowGet (nodeRow e.tgt) "entity_name" = rowGet (relRow e) "tgt_id" := rfl
    rw [this, beq_self_eq_true]

/-- C3 witness: on a concrete two-node, one-edge graph, the edge's
`src_id` and `tgt_id` both name entities of the output. -/
theorem c3_witness :
    hasEntityNamed kgW3 (rowGet rW3 "src_id") = true ∧
    hasEntityNamed kgW3 (rowGet rW3 "tgt_id") = true :=
  c3_referential_integrity gW3 kgW3 (by decide) rfl rW3 (by decide)

/-- C8: every produced chunk's `tokens` field equals the number of
whitespace-delimited tokens of its `content` string, where runs of
whitespace count as a single delimiter. -/
theorem c8_token_count (g : Graph) (kg : KG)
    (h : convertOnGraph g = Except.ok kg) :
    ∀ c ∈ kgGet kg "chunks",
      rowGet c "tokens" = Val.int (specTokenCount (pyStr (rowGet c "content"))) := by
  rw [convertOnGraph_eq] at h
  obtain rfl := (Except.ok.inj h).symm
  rw [kgGet_chunks]
  intro c hc
  obtain ⟨r, _, rfl⟩ := List.mem_map.mp hc
  show Val.int ((pySplit (pyStr (rowGet r "description"))).length : Int) = _
  have hcontent : rowGet (chunkOfRow r) "content" = rowGet r "description" := rfl
  rw [hcontent, pySplit_length]

/-- C8 witness: on a concrete node whose description contains single
and double spaces, the chunk's token count matches the whitespace-run
count of its content, namely 3. -/
theorem c8_witness :
    rowGet cW8 "tokens" = Val.int (specTokenCount (pyStr (rowGet cW8 "content"))) ∧
    rowGet cW8 "tokens" = Val.int 3 :=
  ⟨c8_token_count gW8 kgW8 rfl cW8 (by decide), by decide⟩

/-- C9 counterexample: an entity row of the output carries the field
name `properties`, which is not among the four contract field names the
claim says entity records carry exactly. -/
theorem c9_counterexample :
    nodeRow nW9 ∈ kgGet kgW9 "entities" ∧
    "properties" ∈ (nodeRow nW9).map Prod.fst ∧
    "properties" ∉ (["entity_name", "entity_type", "description", "source_id"] : List String) := by
  decide

/-- C9 amended: the output is keyed by exactly `entities`, `relations`,
`chunks`; relation records carry exactly the six contract field names
and chunk records exactly the five; entity records carry the four
contract field names plus one additional `properties` field holding the
raw property map. -/
theorem c9_field_names (g : Graph) (kg : KG)
    (h : convertOnGraph g = Except.ok kg) :
    kg.map Prod.fst = ["entities", "relations", "chunks"] ∧
    (∀ r ∈ kgGet kg "entities",
      r.map Prod.fst =
        ["source_id", "entity_name", "entity_type", "description", "properties"]) ∧
    (∀ r ∈ kgGet kg "relations",
      r.map Prod.fst =
        ["src_id", "tgt_id", "description", "keywords", "weight", "source_id"]) ∧
    (∀ r ∈ kgGet kg "chunks",
      r.map Prod.fst =
        ["chunk_id", "content", "source_id", "tokens", "chunk_order_index"]) := by
  rw [convertOnGraph_eq] at h
  obtain rfl := (Except.ok.inj h).symm
  refine ⟨rfl, ?_, ?_, ?_⟩
  · rw [kgGet_entities]
    intro r hr
    obtain ⟨n, _, rfl⟩ := List.mem_map.mp hr
    rfl
  · rw [kgGet_relations]
    intro r hr
    obtain ⟨e, _, rfl⟩ := List.mem_map.mp hr
    rfl
  · rw [kgGet_chunks]
    intro r hr
    obtain ⟨nr, _, rfl⟩ := List.mem_map.mp hr
    rfl

/-- C9 witness: on a concrete one-node graph the output's top-level
keys are exactly the three contract names. -/
theorem c9_witness :
    kgW9.map Prod.fst = ["entities", "relations", "chunks"] :=
  (c9_field_names gW9 kgW9 rfl).1

/-- C10: the entity and relation sequences of the output are the query
result row sequences themselves, passed through unchanged — no
per-record transformation, filtering, or reordering — so every column a
query returns (the raw `properties` map included) appears verbatim in
the output, in query-result order. -/
theorem c10_rows_passed_through (g : Graph) (kg : KG)
    (h : convertOnGraph g = Except.ok kg) :
    kgGet kg "entities" = node_query g ∧
    kgGet kg "relations" = relationship_query g := by
  rw [convertOnGraph_eq] at h
  obtain rfl := (Except.ok.inj h).symm
  exact ⟨kgGet_entities _ _ _, kgGet_relations _ _ _⟩

/-- C10 witness: on a concrete one-node, one-edge graph the output's
entity and relation sequences are exactly the query row sequences. -/
theorem c10_witness :
    kgGet kgW10 "entities" = node_query gW10 ∧
    kgGet kgW10 "relations" = relationship_query gW10 :=
  c10_rows_passed_through gW10 kgW10 rfl

end N2L
